import Mathlib

/-!
Shallow embedding of the e-commerce dashboard's data-preparation and
business-metric code (files `data_loader.py` and `business_metrics.py`).

Tables are embedded as lists of records, pandas merges as list joins,
groupby aggregations as key-indexed reductions, and float columns as
rationals.  A `NaN` result (the mean of an empty frame, the first entry
of `pct_change`) is embedded as `none`; identifiers are natural numbers
and timestamps are integers measured in days.
-/

namespace Ecom

/-- First-occurrence deduplication of a list, embedding pandas
`drop_duplicates` (and `Series.nunique` via its length). -/
def dropDup {α : Type} [DecidableEq α] : List α → List α
  | [] => []
  | a :: l => a :: (dropDup l).filter (fun b => ¬ b = a)

theorem mem_dropDup {α : Type} [DecidableEq α] {a : α} :
    ∀ {l : List α}, a ∈ dropDup l ↔ a ∈ l
  | [] => Iff.rfl
  | b :: l => by
    simp only [dropDup, List.mem_cons, List.mem_filter, decide_eq_true_eq]
    by_cases hab : a = b
    · simp [hab]
    · simp [hab, mem_dropDup (l := l)]

theorem nodup_dropDup {α : Type} [DecidableEq α] : ∀ (l : List α), (dropDup l).Nodup
  | [] => List.nodup_nil
  | a :: l => by
    simp only [dropDup, List.nodup_cons]
    refine ⟨fun hmem => ?_, (nodup_dropDup l).filter _⟩
    have := List.of_mem_filter hmem
    simp at this

theorem dropDup_toFinset {α : Type} [DecidableEq α] (l : List α) :
    (dropDup l).toFinset = l.toFinset := by
  ext a
  simp [List.mem_toFinset, mem_dropDup]

theorem dropDup_length {α : Type} [DecidableEq α] (l : List α) :
    (dropDup l).length = l.toFinset.card := by
  rw [← dropDup_toFinset, List.card_toFinset, (nodup_dropDup l).dedup]

theorem dropDup_map_sum {α : Type} [DecidableEq α] (l : List α) (f : α → ℚ) :
    ((dropDup l).map f).sum = l.toFinset.sum f := by
  rw [← dropDup_toFinset, List.sum_toFinset f (nodup_dropDup l)]

/-- Mean of a numeric series; `none` embeds the `NaN` that pandas
returns for the mean of an empty series. -/
def seriesMean (l : List ℚ) : Option ℚ :=
  if l.isEmpty then none else some (l.sum / l.length)

/-- One row of the denormalized sales table produced by
`create_sales_dataset` as the metric functions consume it: order and
product identifiers, the item price, the derived `year` and `month`
columns, and the two order-level timestamps used for delivery speed. -/
structure SalesRow where
  order_id : Nat
  product_id : Nat
  price : ℚ
  year : Int
  month : Int
  purchase_ts : Int
  delivered_ts : Int
deriving DecidableEq

/-- `sales_data[sales_data[period_col] == period_value]`: the period
column is embedded as an accessor on rows. -/
def filterPeriod (sales_data : List SalesRow) (pcol : SalesRow → Int) (v : Int) :
    List SalesRow :=
  sales_data.filter (fun r => pcol r = v)

/-- `frame['price'].sum()`. -/
def revenueSum (rows : List SalesRow) : ℚ :=
  (rows.map SalesRow.price).sum

/-- Result record of `calculate_revenue_metrics`. -/
structure RevenueMetrics where
  current_revenue : ℚ
  comparison_revenue : ℚ
  revenue_growth_pct : ℚ
  current_period : Int
  comparison_period : Int
deriving DecidableEq

/-- `calculate_revenue_metrics` from `business_metrics.py`. -/
def calculate_revenue_metrics (sales_data : List SalesRow) (pcol : SalesRow → Int)
    (current_period comparison_period : Int) : RevenueMetrics :=
  { current_revenue := revenueSum (filterPeriod sales_data pcol current_period)
    comparison_revenue := revenueSum (filterPeriod sales_data pcol comparison_period)
    revenue_growth_pct :=
      if 0 < revenueSum (filterPeriod sales_data pcol comparison_period) then
        (revenueSum (filterPeriod sales_data pcol current_period)
            - revenueSum (filterPeriod sales_data pcol comparison_period))
          / revenueSum (filterPeriod sales_data pcol comparison_period) * 100
      else 0
    current_period := current_period
    comparison_period := comparison_period }

/-- The local helper `categorize_delivery_speed` of
`calculate_customer_satisfaction_metrics`. -/
def categorize_delivery_speed (days : Int) : String :=
  if days ≤ 3 then "1-3 days"
  else if days ≤ 7 then "4-7 days"
  else "8+ days"

/-- C6: the delivery-speed bucketing uses inclusive boundaries: a speed
of exactly 3 days is categorized as "1-3 days", exactly 7 days as
"4-7 days", and exactly 8 days as "8+ days"; in general speeds at most 3
are fast, speeds in (3, 7] are mid, and speeds above 7 are slow. -/
theorem C6_delivery_bucket_boundaries :
    (∀ days : Int,
      (categorize_delivery_speed days = "1-3 days" ↔ days ≤ 3) ∧
      (categorize_delivery_speed days = "4-7 days" ↔ (3 < days ∧ days ≤ 7)) ∧
      (categorize_delivery_speed days = "8+ days" ↔ 7 < days)) ∧
    categorize_delivery_speed 3 = "1-3 days" ∧
    categorize_delivery_speed 7 = "4-7 days" ∧
    categorize_delivery_speed 8 = "8+ days" := by
  refine ⟨fun days => ?_, by decide, by decide, by decide⟩
  unfold categorize_delivery_speed
  by_cases h1 : days ≤ 3
  · rw [if_pos h1]
    exact ⟨⟨fun _ => h1, fun _ => rfl⟩,
           ⟨fun h => absurd h (by decide), fun h => absurd h1 (by omega)⟩,
           ⟨fun h => absurd h (by decide), fun h => absurd h1 (by omega)⟩⟩
  · rw [if_neg h1]
    by_cases h2 : days ≤ 7
    · rw [if_pos h2]
      exact ⟨⟨fun h => absurd h (by decide), fun h => absurd h h1⟩,
             ⟨fun _ => ⟨by omega, h2⟩, fun _ => rfl⟩,
             ⟨fun h => absurd h (by decide), fun h => absurd h2 (by omega)⟩⟩
    · rw [if_neg h2]
      exact ⟨⟨fun h => absurd h (by decide), fun h => absurd h h1⟩,
             ⟨fun h => absurd h (by decide), fun h => absurd h.2 h2⟩,
             ⟨fun _ => by omega, fun _ => rfl⟩⟩

/-- A sales table whose comparison period holds a single negative-priced
item: the comparison revenue is negative, where the code's growth guard
(`comparison_revenue > 0`) and the claimed growth formula disagree. -/
def exC4 : List SalesRow :=
  [⟨1, 1, -10, 2022, 1, 0, 0⟩, ⟨2, 1, 5, 2023, 1, 0, 0⟩]

/-- C4 counterexample: on `exC4` the code returns a growth of 0 although
the comparison revenue is -10 (not 0), while the claimed formula
`(current - comparison) / comparison * 100` evaluates to -150. -/
theorem C4_growth_counterexample :
    (calculate_revenue_metrics exC4 SalesRow.year 2023 2022).current_revenue = 5 ∧
    (calculate_revenue_metrics exC4 SalesRow.year 2023 2022).comparison_revenue = -10 ∧
    (calculate_revenue_metrics exC4 SalesRow.year 2023 2022).revenue_growth_pct = 0 ∧
    ((5 : ℚ) - (-10)) / (-10) * 100 ≠ 0 := by
  refine ⟨?_, ?_, ?_, by norm_num⟩ <;>
    norm_num [calculate_revenue_metrics, filterPeriod, revenueSum, exC4]

/-- C4 (amended): the current and comparison revenues are the price sums
over the rows matching each period value; the growth percentage is
`(current - comparison) / comparison * 100` whenever the comparison
revenue is strictly positive, and exactly 0 whenever the comparison
revenue is zero or negative (never a division-by-zero error). -/
theorem C4_revenue_metrics_amended (sales_data : List SalesRow) (pcol : SalesRow → Int)
    (cur comp : Int) :
    (calculate_revenue_metrics sales_data pcol cur comp).current_revenue
        = revenueSum (filterPeriod sales_data pcol cur) ∧
    (calculate_revenue_metrics sales_data pcol cur comp).comparison_revenue
        = revenueSum (filterPeriod sales_data pcol comp) ∧
    (0 < (calculate_revenue_metrics sales_data pcol cur comp).comparison_revenue →
      (calculate_revenue_metrics sales_data pcol cur comp).revenue_growth_pct
        = ((calculate_revenue_metrics sales_data pcol cur comp).current_revenue
            - (calculate_revenue_metrics sales_data pcol cur comp).comparison_revenue)
          / (calculate_revenue_metrics sales_data pcol cur comp).comparison_revenue * 100) ∧
    ((calculate_revenue_metrics sales_data pcol cur comp).comparison_revenue ≤ 0 →
      (calculate_revenue_metrics sales_data pcol cur comp).revenue_growth_pct = 0) := by
  refine ⟨rfl, rfl, fun hpos => ?_, fun hnonpos => ?_⟩
  · simp only [calculate_revenue_metrics] at hpos ⊢
    rw [if_pos hpos]
  · simp only [calculate_revenue_metrics] at hnonpos ⊢
    rw [if_neg (not_lt.mpr hnonpos)]

/-- A sales table with positive revenue in both periods, exercising the
formula branch of the growth computation. -/
def exC4w : List SalesRow :=
  [⟨1, 1, 10, 2022, 1, 0, 0⟩, ⟨2, 1, 15, 2023, 1, 0, 0⟩]

/-- C4 witness: on `exC4w` the comparison revenue is positive and the
growth formula yields 50 percent; on `exC4` the comparison revenue is
negative and the growth is 0. -/
theorem C4_revenue_metrics_amended_witness :
    (calculate_revenue_metrics exC4w SalesRow.year 2023 2022).revenue_growth_pct = 50 ∧
    (calculate_revenue_metrics exC4 SalesRow.year 2023 2022).revenue_growth_pct = 0 := by
  constructor
  · have h := (C4_revenue_metrics_amended exC4w SalesRow.year 2023 2022).2.2.1
      (by norm_num [calculate_revenue_metrics, filterPeriod, revenueSum, exC4w])
    rw [h]
    norm_num [calculate_revenue_metrics, filterPeriod, revenueSum, exC4w]
  · exact (C4_revenue_metrics_amended exC4 SalesRow.year 2023 2022).2.2.2
      (by norm_num [calculate_revenue_metrics, filterPeriod, revenueSum, exC4])

/-- `Series.nunique`: the number of distinct values in a column. -/
def nunique {α : Type} [DecidableEq α] (l : List α) : Nat :=
  (dropDup l).length

/-- Result record of `calculate_order_metrics`. -/
structure OrderMetrics where
  current_orders : Nat
  comparison_orders : Nat
  order_growth_pct : ℚ
deriving DecidableEq

/-- `calculate_order_metrics` from `business_metrics.py`. -/
def calculate_order_metrics (sales_data : List SalesRow) (pcol : SalesRow → Int)
    (current_period comparison_period : Int) : OrderMetrics :=
  { current_orders := nunique ((filterPeriod sales_data pcol current_period).map SalesRow.order_id)
    comparison_orders := nunique ((filterPeriod sales_data pcol comparison_period).map SalesRow.order_id)
    order_growth_pct :=
      if 0 < nunique ((filterPeriod sales_data pcol comparison_period).map SalesRow.order_id) then
        ((nunique ((filterPeriod sales_data pcol current_period).map SalesRow.order_id) : ℚ)
            - (nunique ((filterPeriod sales_data pcol comparison_period).map SalesRow.order_id) : ℚ))
          / (nunique ((filterPeriod sales_data pcol comparison_period).map SalesRow.order_id) : ℚ)
          * 100
      else 0 }

/-- Two line items under one order, each priced 10, in the current
period. -/
def exC8 : List SalesRow :=
  [⟨1, 1, 10, 2023, 1, 0, 0⟩, ⟨1, 2, 10, 2023, 1, 0, 0⟩]

/-- C8: the order counts are the numbers of distinct order identifiers
among the rows of each period, not row counts; on a period holding two
items of one order the order count is 1 while the revenue sums both
prices to 20. -/
theorem C8_order_count_distinct (sales_data : List SalesRow) (pcol : SalesRow → Int)
    (cur comp : Int) :
    (calculate_order_metrics sales_data pcol cur comp).current_orders
        = ((filterPeriod sales_data pcol cur).map SalesRow.order_id).toFinset.card ∧
    (calculate_order_metrics sales_data pcol cur comp).comparison_orders
        = ((filterPeriod sales_data pcol comp).map SalesRow.order_id).toFinset.card ∧
    (calculate_order_metrics exC8 SalesRow.year 2023 2022).current_orders = 1 ∧
    (calculate_revenue_metrics exC8 SalesRow.year 2023 2022).current_revenue = 20 := by
  refine ⟨dropDup_length _, dropDup_length _, by decide, ?_⟩
  norm_num [calculate_revenue_metrics, filterPeriod, revenueSum, exC8]

/-- `frame.groupby('order_id')['price'].sum()`: the per-order price
totals, one entry per distinct order identifier. -/
def orderTotals (rows : List SalesRow) : List ℚ :=
  (dropDup (rows.map SalesRow.order_id)).map
    (fun oid => revenueSum (rows.filter (fun r => r.order_id = oid)))

/-- Result record of `calculate_average_order_value`; `none` embeds the
NaN produced on an empty period. -/
structure AovMetrics where
  current_aov : Option ℚ
  comparison_aov : Option ℚ
  aov_growth_pct : Option ℚ
deriving DecidableEq

/-- `calculate_average_order_value` from `business_metrics.py`. -/
def calculate_average_order_value (sales_data : List SalesRow) (pcol : SalesRow → Int)
    (current_period comparison_period : Int) : AovMetrics :=
  { current_aov := seriesMean (orderTotals (filterPeriod sales_data pcol current_period))
    comparison_aov := seriesMean (orderTotals (filterPeriod sales_data pcol comparison_period))
    aov_growth_pct :=
      match seriesMean (orderTotals (filterPeriod sales_data pcol comparison_period)) with
      | some p =>
        if 0 < p then
          (seriesMean (orderTotals (filterPeriod sales_data pcol current_period))).map
            (fun c => (c - p) / p * 100)
        else some 0
      | none => some 0 }

/-- A single order with two line items priced 10 and 20 in the current
period. -/
def exC3 : List SalesRow :=
  [⟨1, 1, 10, 2023, 1, 0, 0⟩, ⟨1, 2, 20, 2023, 1, 0, 0⟩]

/-- C3: on a non-empty period, the current AOV is the mean over distinct
order identifiers of the per-order summed price; on a period holding one
order with items priced 10 and 20 the AOV is 30, not the line-item mean
(10 + 20) / 2 = 15. -/
theorem C3_aov_per_order (sales_data : List SalesRow) (pcol : SalesRow → Int)
    (cur comp : Int) :
    (filterPeriod sales_data pcol cur ≠ [] →
      (calculate_average_order_value sales_data pcol cur comp).current_aov
        = some ((((filterPeriod sales_data pcol cur).map SalesRow.order_id).toFinset.sum
              (fun oid => revenueSum ((filterPeriod sales_data pcol cur).filter
                (fun r => r.order_id = oid))))
            / (((filterPeriod sales_data pcol cur).map SalesRow.order_id).toFinset.card))) ∧
    (calculate_average_order_value exC3 SalesRow.year 2023 2022).current_aov = some 30 ∧
    (30 : ℚ) ≠ (10 + 20) / 2 := by
  have main : ∀ (sd : List SalesRow) (pc : SalesRow → Int) (c cp : Int),
      filterPeriod sd pc c ≠ [] →
      (calculate_average_order_value sd pc c cp).current_aov
        = some ((((filterPeriod sd pc c).map SalesRow.order_id).toFinset.sum
              (fun oid => revenueSum ((filterPeriod sd pc c).filter
                (fun r => r.order_id = oid))))
            / (((filterPeriod sd pc c).map SalesRow.order_id).toFinset.card)) := by
    intro sd pc c cp hne
    have hne2 : orderTotals (filterPeriod sd pc c) ≠ [] := by
      rcases List.exists_mem_of_ne_nil _ hne with ⟨r, hr⟩
      have h1 : r.order_id ∈ (filterPeriod sd pc c).map SalesRow.order_id :=
        List.mem_map_of_mem _ hr
      have h2 : r.order_id ∈ dropDup ((filterPeriod sd pc c).map SalesRow.order_id) :=
        mem_dropDup.mpr h1
      exact List.ne_nil_of_mem (List.mem_map_of_mem _ h2)
    show seriesMean (orderTotals (filterPeriod sd pc c)) = _
    rw [seriesMean, if_neg (by simpa [List.isEmpty_iff] using hne2)]
    rw [orderTotals, dropDup_map_sum, List.length_map, dropDup_length]
  refine ⟨main sales_data pcol cur comp, ?_, by norm_num⟩
  rw [main exC3 SalesRow.year 2023 2022 (by simp [filterPeriod, exC3])]
  norm_num [filterPeriod, revenueSum, exC3]

/-- C3 witness: the AOV theorem applied to the concrete two-item,
one-order period. -/
theorem C3_aov_per_order_witness :
    (calculate_average_order_value exC3 SalesRow.year 2023 2022).current_aov = some 30 := by
  have h := (C3_aov_per_order exC3 SalesRow.year 2023 2022).1 (by simp [filterPeriod, exC3])
  rw [h]
  norm_num [filterPeriod, revenueSum, exC3]

/-- One row of the order-items table as `create_sales_dataset` reads it. -/
structure OrderItemRow where
  order_id : Nat
  product_id : Nat
  price : ℚ
deriving DecidableEq

/-- One row of the cleaned orders table, with the columns read by
`create_sales_dataset` and `calculate_geographic_performance`. -/
structure OrderRow where
  order_id : Nat
  customer_id : Nat
  order_status : String
deriving DecidableEq

/-- The loader's `self.datasets` mapping after loading: a table is
`none` when its source file was missing and the load skipped it with a
warning.  Only the two tables the claims read are carried. -/
structure Datasets where
  order_items : Option (List OrderItemRow)
  orders : Option (List OrderRow)

/-- A row of the joined sales table: an order-item row together with the
`order_status` column brought in by the left merge with orders (`none`
embeds the NaN of an unmatched left row). -/
structure JoinedSalesRow where
  item : OrderItemRow
  order_status : Option String
deriving DecidableEq

/-- The left merge of order items with orders on `order_id`
(`pd.merge(..., how='left')`): every left row is kept, null-filled when
no order matches, fanned out over all matching order rows. -/
def leftMergeStatus (items : List OrderItemRow) (orders : List OrderRow) :
    List JoinedSalesRow :=
  items.flatMap (fun it =>
    match orders.filter (fun o => o.order_id = it.order_id) with
    | [] => [⟨it, none⟩]
    | ms => ms.map (fun o => ⟨it, some o.order_status⟩))

/-- `EcommerceDataLoader.create_sales_dataset`.  `filter_status = none`
embeds a falsy (`None` or empty) status argument; accessing a missing
table or column raises `KeyError`, embedded as `Except.error`.  The
derived year/month columns are not read by any claim and are omitted
from the result rows. -/
def create_sales_dataset (ds : Datasets) (filter_status : Option String)
    (include_cancelled : Bool) : Except String (List JoinedSalesRow) :=
  match ds.order_items with
  | none => Except.error "KeyError: order_items"
  | some items =>
    match ds.orders with
    | some orders =>
      match filter_status, include_cancelled with
      | some fs, false =>
        Except.ok ((leftMergeStatus items orders).filter
          (fun r => r.order_status = some fs))
      | some fs, true =>
        Except.ok ((leftMergeStatus items orders).filter
          (fun r => r.order_status = some fs ∨ r.order_status = some "cancelled"))
      | none, _ => Except.ok (leftMergeStatus items orders)
    | none =>
      match filter_status with
      | some _ => Except.error "KeyError: order_status"
      | none => Except.ok (items.map (fun it => ⟨it, none⟩))

/-- C2: with both tables present and a non-empty requested status, a row
is in the returned table iff it comes from the item-order join and its
status equals the requested status, or equals "cancelled" when
`include_cancelled` is true; with the defaults (status "delivered",
cancelled excluded) every returned row has status "delivered". -/
theorem C2_status_filter (items : List OrderItemRow) (orders : List OrderRow)
    (fs : String) (incl : Bool) :
    (∃ rows, create_sales_dataset ⟨some items, some orders⟩ (some fs) incl
        = Except.ok rows ∧
      ∀ r, r ∈ rows ↔ r ∈ leftMergeStatus items orders ∧
        (r.order_status = some fs ∨ (incl = true ∧ r.order_status = some "cancelled"))) ∧
    (∀ rows r, create_sales_dataset ⟨some items, some orders⟩ (some "delivered") false
        = Except.ok rows → r ∈ rows → r.order_status = some "delivered") := by
  constructor
  · cases incl with
    | false =>
      refine ⟨_, rfl, fun r => ?_⟩
      simp [List.mem_filter]
    | true =>
      refine ⟨_, rfl, fun r => ?_⟩
      simp [List.mem_filter]
  · intro rows r hok hr
    simp only [create_sales_dataset, Except.ok.injEq] at hok
    subst hok
    have := List.of_mem_filter hr
    simpa using this

/-- Concrete order items for the C2 witness. -/
def exItems : List OrderItemRow := [⟨1, 1, 10⟩, ⟨2, 1, 5⟩]

/-- Concrete orders for the C2 witness: order 1 delivered, order 2
cancelled. -/
def exOrders : List OrderRow := [⟨1, 1, "delivered"⟩, ⟨2, 2, "cancelled"⟩]

/-- C2 witness: under the default arguments, the joined row of order 1
is returned and the theorem yields its status "delivered". -/
theorem C2_status_filter_witness :
    (⟨⟨1, 1, 10⟩, some "delivered"⟩ : JoinedSalesRow).order_status = some "delivered" := by
  refine (C2_status_filter exItems exOrders "delivered" false).2
    [⟨⟨1, 1, 10⟩, some "delivered"⟩] ⟨⟨1, 1, 10⟩, some "delivered"⟩ rfl (by decide)

/-- C9: when the order-items table was skipped at load time,
`create_sales_dataset` raises a `KeyError` whatever the other arguments
are; when the orders table was skipped and a non-empty status filter is
requested, it raises on the missing `order_status` column instead of
returning unfiltered data. -/
theorem C9_missing_table_raises (ods : Option (List OrderRow)) (fsOpt : Option String)
    (incl : Bool) (items : List OrderItemRow) (fs : String) (incl2 : Bool) :
    create_sales_dataset ⟨none, ods⟩ fsOpt incl
        = Except.error "KeyError: order_items" ∧
    create_sales_dataset ⟨some items, none⟩ (some fs) incl2
        = Except.error "KeyError: order_status" :=
  ⟨rfl, rfl⟩

/-- Inner merge of two tables on a key (`pd.merge` with its default
`how='inner'`): every pairing of a left row with a right row carrying
the same key. -/
def innerMerge {α β κ : Type} [DecidableEq κ] (left : List α) (right : List β)
    (kl : α → κ) (kr : β → κ) : List (α × β) :=
  left.flatMap (fun a => (right.filter (fun b => kr b = kl a)).map (fun b => (a, b)))

theorem mem_innerMerge {α β κ : Type} [DecidableEq κ] {left : List α} {right : List β}
    {kl : α → κ} {kr : β → κ} {p : α × β} :
    p ∈ innerMerge left right kl kr ↔ p.1 ∈ left ∧ p.2 ∈ right ∧ kr p.2 = kl p.1 := by
  obtain ⟨a, b⟩ := p
  simp only [innerMerge, List.mem_flatMap, List.mem_map, List.mem_filter, decide_eq_true_eq]
  constructor
  · rintro ⟨a2, ha2, b2, ⟨hb2, hk⟩, heq⟩
    cases heq
    exact ⟨ha2, hb2, hk⟩
  · rintro ⟨ha, hb, hk⟩
    exact ⟨a, ha, b, ⟨hb, hk⟩, rfl⟩

theorem filter_eq_singleton_of_nodup {α : Type} {p : α → Bool} {l : List α} {a : α}
    (hnd : l.Nodup) (ha : a ∈ l) (hpa : p a = true)
    (huniq : ∀ b ∈ l, p b = true → b = a) :
    l.filter p = [a] := by
  induction l with
  | nil => cases ha
  | cons x l ih =>
    rcases List.nodup_cons.mp hnd with ⟨hx, hnd2⟩
    rcases List.mem_cons.mp ha with heq | hal
    · subst heq
      rw [List.filter_cons_of_pos hpa]
      have hnil : l.filter p = [] := by
        rw [List.filter_eq_nil_iff]
        intro b hb hpb
        exact hx ((huniq b (List.mem_cons_of_mem _ hb) hpb) ▸ hb)
      rw [hnil]
    · have hxp : ¬ p x = true := fun hpx =>
        hx ((huniq x (List.mem_cons_self _ _) hpx) ▸ hal)
      rw [List.filter_cons_of_neg (by simpa using hxp)]
      exact ih hnd2 hal (fun b hb hpb => huniq b (List.mem_cons_of_mem _ hb) hpb)

/-- One row of the reviews table as the satisfaction metric reads it. -/
structure ReviewRow where
  order_id : Nat
  review_score : ℚ
deriving DecidableEq

/-- One row of the `order_satisfaction` frame: the three columns kept
before `drop_duplicates` in `calculate_customer_satisfaction_metrics`. -/
structure OrderSatRow where
  order_id : Nat
  delivery_speed : Int
  review_score : ℚ
deriving DecidableEq

/-- The `order_satisfaction` frame of
`calculate_customer_satisfaction_metrics`: the period rows inner-merged
with reviews on `order_id`, projected to
`['order_id', 'delivery_speed', 'review_score']` (delivery speed in days
is the delivered timestamp minus the purchase timestamp) and passed
through `drop_duplicates`. -/
def order_satisfaction (sales_data : List SalesRow) (reviews_data : List ReviewRow)
    (pcol : SalesRow → Int) (v : Int) : List OrderSatRow :=
  dropDup ((innerMerge (filterPeriod sales_data pcol v) reviews_data
      SalesRow.order_id ReviewRow.order_id).map
    (fun p => ⟨p.1.order_id, p.1.delivered_ts - p.1.purchase_ts, p.2.review_score⟩))

/-- `frame.groupby(key)[col].mean().to_dict()`: one entry per distinct
key, holding the mean of the column over the rows with that key. -/
def groupMeanBy {α κ : Type} [DecidableEq κ] (l : List α) (key : α → κ) (val : α → ℚ) :
    List (κ × Option ℚ) :=
  (dropDup (l.map key)).map
    (fun k => (k, seriesMean ((l.filter (fun a => key a = k)).map val)))

/-- Result record of `calculate_customer_satisfaction_metrics`. -/
structure SatisfactionMetrics where
  avg_review_score : Option ℚ
  avg_delivery_time_days : Option ℚ
  satisfaction_by_delivery_speed : List (String × Option ℚ)
deriving DecidableEq

/-- `calculate_customer_satisfaction_metrics` from
`business_metrics.py`. -/
def calculate_customer_satisfaction_metrics (sales_data : List SalesRow)
    (reviews_data : List ReviewRow) (pcol : SalesRow → Int) (v : Int) :
    SatisfactionMetrics :=
  { avg_review_score :=
      seriesMean ((order_satisfaction sales_data reviews_data pcol v).map
        OrderSatRow.review_score)
    avg_delivery_time_days :=
      seriesMean ((order_satisfaction sales_data reviews_data pcol v).map
        (fun t => (t.delivery_speed : ℚ)))
    satisfaction_by_delivery_speed :=
      groupMeanBy (order_satisfaction sales_data reviews_data pcol v)
        (fun t => categorize_delivery_speed t.delivery_speed)
        OrderSatRow.review_score }

/-- One line item of order 1, delivered in 2 days. -/
def exC7sales : List SalesRow := [⟨1, 1, 10, 2023, 1, 0, 2⟩]

/-- Two distinct reviews for order 1: a merge fan-out the triple-level
`drop_duplicates` does not collapse. -/
def exC7reviews : List ReviewRow := [⟨1, 1⟩, ⟨1, 5⟩]

/-- C7 counterexample: with two reviews on one order, the deduplicated
`order_satisfaction` frame keeps two rows for that order, so the data is
not deduplicated to one row per order as the claim states. -/
theorem C7_dedup_counterexample :
    ((order_satisfaction exC7sales exC7reviews SalesRow.year 2023).filter
        (fun t => t.order_id = 1)).length = 2 ∧
    ¬ ((order_satisfaction exC7sales exC7reviews SalesRow.year 2023).filter
        (fun t => t.order_id = 1)).length = 1 := by
  constructor <;> decide

/-- C7 (amended): the join result is deduplicated to one row per
distinct (order id, delivery speed, review score) triple; whenever an
order present in the period has one single review and all its line-item
rows agree on the delivery timestamps, exactly one row for that order
survives — in particular an order with 3 line items and 1 review
contributes exactly one row to the averages. -/
theorem C7_dedup_amended (sales_data : List SalesRow) (reviews_data : List ReviewRow)
    (pcol : SalesRow → Int) (v : Int) :
    (order_satisfaction sales_data reviews_data pcol v).Nodup ∧
    (∀ (oid : Nat) (d : Int) (s : ℚ),
      (∃ r ∈ filterPeriod sales_data pcol v, r.order_id = oid) →
      (∀ r ∈ filterPeriod sales_data pcol v, r.order_id = oid →
        r.delivered_ts - r.purchase_ts = d) →
      (reviews_data.filter (fun rv => rv.order_id = oid)).map ReviewRow.review_score = [s] →
      (order_satisfaction sales_data reviews_data pcol v).filter
          (fun t => t.order_id = oid) = [⟨oid, d, s⟩]) := by
  refine ⟨nodup_dropDup _, ?_⟩
  rintro oid d s ⟨r0, hr0, hoid0⟩ hspeed hrev
  have hscore : ∀ rv ∈ reviews_data, rv.order_id = oid → rv.review_score = s := by
    intro rv hrv hrvoid
    have hmemf : rv ∈ reviews_data.filter (fun x => x.order_id = oid) :=
      List.mem_filter.mpr ⟨hrv, by simp [hrvoid]⟩
    have := List.mem_map_of_mem ReviewRow.review_score hmemf
    rw [hrev] at this
    simpa using this
  have hrv0 : ∃ rv0 ∈ reviews_data, rv0.order_id = oid := by
    have hne : reviews_data.filter (fun x => x.order_id = oid) ≠ [] := by
      intro hnil
      rw [hnil] at hrev
      cases hrev
    rcases List.exists_mem_of_ne_nil _ hne with ⟨rv0, hmem⟩
    refine ⟨rv0, List.mem_of_mem_filter hmem, ?_⟩
    have := List.of_mem_filter hmem
    simpa using this
  rcases hrv0 with ⟨rv0, hrv0mem, hrv0oid⟩
  have hmemt : (⟨oid, d, s⟩ : OrderSatRow) ∈
      order_satisfaction sales_data reviews_data pcol v := by
    refine mem_dropDup.mpr ?_
    have hp : (r0, rv0) ∈ innerMerge (filterPeriod sales_data pcol v) reviews_data
        SalesRow.order_id ReviewRow.order_id :=
      mem_innerMerge.mpr ⟨hr0, hrv0mem, by rw [hrv0oid, hoid0]⟩
    have hmapped : (⟨r0.order_id, r0.delivered_ts - r0.purchase_ts, rv0.review_score⟩ :
        OrderSatRow) ∈ (innerMerge (filterPeriod sales_data pcol v) reviews_data
          SalesRow.order_id ReviewRow.order_id).map
        (fun p => ⟨p.1.order_id, p.1.delivered_ts - p.1.purchase_ts, p.2.review_score⟩) :=
      List.mem_map_of_mem
        (fun p : SalesRow × ReviewRow =>
          (⟨p.1.order_id, p.1.delivered_ts - p.1.purchase_ts, p.2.review_score⟩ :
            OrderSatRow)) hp
    rwa [hoid0, hspeed r0 hr0 hoid0, hscore rv0 hrv0mem hrv0oid] at hmapped
  refine filter_eq_singleton_of_nodup (nodup_dropDup _) hmemt (by simp) ?_
  intro t htmem htp
  have htoid : t.order_id = oid := by simpa using htp
  have htM := mem_dropDup.mp htmem
  rcases List.mem_map.mp htM with ⟨p, hpmem, hpeq⟩
  rcases mem_innerMerge.mp hpmem with ⟨hpl, hpr, hpk⟩
  have hp1oid : p.1.order_id = oid := by
    rw [← hpeq] at htoid
    exact htoid
  have hp2oid : p.2.order_id = oid := by rw [hpk, hp1oid]
  rw [← hpeq]
  have h1 : p.1.delivered_ts - p.1.purchase_ts = d := hspeed p.1 hpl hp1oid
  have h2 : p.2.review_score = s := hscore p.2 hpr hp2oid
  rw [hp1oid, h1, h2]

/-- Three line items of order 1 (all delivered in 2 days) and one single
review with score 4. -/
def exC7wsales : List SalesRow :=
  [⟨1, 1, 10, 2023, 1, 0, 2⟩, ⟨1, 2, 20, 2023, 1, 0, 2⟩, ⟨1, 3, 5, 2023, 1, 0, 2⟩]

/-- The single review of order 1 for the C7 witness. -/
def exC7wreviews : List ReviewRow := [⟨1, 4⟩]

/-- C7 witness: an order with 3 line items and 1 review contributes
exactly one row, and the average review score over the deduplicated
frame is that review's score. -/
theorem C7_dedup_amended_witness :
    (order_satisfaction exC7wsales exC7wreviews SalesRow.year 2023).filter
        (fun t => t.order_id = 1) = [⟨1, 2, 4⟩] ∧
    (calculate_customer_satisfaction_metrics exC7wsales exC7wreviews
        SalesRow.year 2023).avg_review_score = some 4 := by
  constructor
  · exact (C7_dedup_amended exC7wsales exC7wreviews SalesRow.year 2023).2 1 2 4
      ⟨⟨1, 1, 10, 2023, 1, 0, 2⟩, by decide, rfl⟩ (by decide) (by decide)
  · norm_num [calculate_customer_satisfaction_metrics, order_satisfaction, innerMerge,
      filterPeriod, dropDup, seriesMean, exC7wsales, exC7wreviews]

/-- C10: a deduplicated order row whose delivery speed is zero or
negative is bucketed as "1-3 days", belongs to that bucket's row group,
and that bucket with its mean review score (computed over a group
containing the row) appears in the satisfaction-by-delivery dictionary:
the row is included, not excluded or flagged. -/
theorem C10_nonpositive_speed_bucket (sales_data : List SalesRow)
    (reviews_data : List ReviewRow) (pcol : SalesRow → Int) (v : Int) (t : OrderSatRow)
    (ht : t ∈ order_satisfaction sales_data reviews_data pcol v)
    (hts : t.delivery_speed ≤ 0) :
    categorize_delivery_speed t.delivery_speed = "1-3 days" ∧
    t ∈ (order_satisfaction sales_data reviews_data pcol v).filter
        (fun u => categorize_delivery_speed u.delivery_speed = "1-3 days") ∧
    ("1-3 days",
        seriesMean (((order_satisfaction sales_data reviews_data pcol v).filter
          (fun u => categorize_delivery_speed u.delivery_speed = "1-3 days")).map
            OrderSatRow.review_score))
      ∈ (calculate_customer_satisfaction_metrics sales_data reviews_data pcol
          v).satisfaction_by_delivery_speed := by
  have hcat : categorize_delivery_speed t.delivery_speed = "1-3 days" := by
    rw [categorize_delivery_speed, if_pos (by omega)]
  refine ⟨hcat, List.mem_filter.mpr ⟨ht, by simp [hcat]⟩, ?_⟩
  show _ ∈ groupMeanBy _ _ _
  rw [groupMeanBy]
  have hkey : "1-3 days" ∈ dropDup ((order_satisfaction sales_data reviews_data pcol v).map
      (fun u => categorize_delivery_speed u.delivery_speed)) := by
    refine mem_dropDup.mpr ?_
    have hmapped : categorize_delivery_speed t.delivery_speed ∈
        (order_satisfaction sales_data reviews_data pcol v).map
          (fun u => categorize_delivery_speed u.delivery_speed) :=
      List.mem_map_of_mem (fun u : OrderSatRow =>
        categorize_delivery_speed u.delivery_speed) ht
    rwa [hcat] at hmapped
  exact List.mem_map_of_mem _ hkey

/-- One line item of order 1 purchased at day 5 and delivered at day 3:
a data-quality glitch giving delivery speed -2. -/
def exC10sales : List SalesRow := [⟨1, 1, 10, 2023, 1, 5, 3⟩]

/-- The review of order 1 for the C10 witness. -/
def exC10reviews : List ReviewRow := [⟨1, 2⟩]

/-- C10 witness: the order row with delivery speed -2 is bucketed as
"1-3 days" and kept in that bucket's group. -/
theorem C10_nonpositive_speed_bucket_witness :
    categorize_delivery_speed (-2 : Int) = "1-3 days" ∧
    (⟨1, -2, 2⟩ : OrderSatRow) ∈
      (order_satisfaction exC10sales exC10reviews SalesRow.year 2023).filter
        (fun u => categorize_delivery_speed u.delivery_speed = "1-3 days") := by
  have h := C10_nonpositive_speed_bucket exC10sales exC10reviews SalesRow.year 2023
    ⟨1, -2, 2⟩ (by decide) (by decide)
  exact ⟨h.1, h.2.1⟩

theorem sum_map_ite_of_mem {κ : Type} [DecidableEq κ] (v : ℚ) (c : κ) :
    ∀ (ks : List κ), ks.Nodup → c ∈ ks →
      (ks.map (fun k => if c = k then v else 0)).sum = v := by
  intro ks
  induction ks with
  | nil => intro _ h; cases h
  | cons k ks ih =>
    intro hnd hmem
    rcases List.nodup_cons.mp hnd with ⟨hk, hnd2⟩
    rcases List.mem_cons.mp hmem with heq | hmem2
    · subst heq
      simp only [List.map_cons, List.sum_cons, if_pos rfl]
      have hz : ks.map (fun k2 => if c = k2 then v else 0) = ks.map (fun _ => (0 : ℚ)) := by
        apply List.map_congr_left
        intro a ha
        have hca : ¬ c = a := by
          intro hca
          rw [hca] at hk
          exact hk ha
        rw [if_neg hca]
      rw [hz]
      simp
    · have hck : ¬ c = k := fun e => hk (e ▸ hmem2)
      simp only [List.map_cons, List.sum_cons, if_neg hck, zero_add]
      exact ih hnd2 hmem2

theorem sum_filter_partition {α κ : Type} [DecidableEq κ] (key : α → κ) (val : α → ℚ) :
    ∀ (l : List α) (ks : List κ), ks.Nodup → (∀ a ∈ l, key a ∈ ks) →
      (ks.map (fun k => ((l.filter (fun a => key a = k)).map val).sum)).sum
        = (l.map val).sum := by
  intro l
  induction l with
  | nil =>
    intro ks _ _
    simp
  | cons a l ih =>
    intro ks hnd hcov
    have hmem : key a ∈ ks := hcov a (List.mem_cons_self a l)
    have hstep : ks.map (fun k => (((a :: l).filter (fun x => key x = k)).map val).sum)
        = ks.map (fun k => (if key a = k then val a else 0)
            + ((l.filter (fun x => key x = k)).map val).sum) := by
      apply List.map_congr_left
      intro k _
      by_cases h : key a = k
      · rw [List.filter_cons_of_pos (by simp [h]), List.map_cons, List.sum_cons, if_pos h]
      · rw [List.filter_cons_of_neg (by simp [h]), if_neg h, zero_add]
    rw [hstep, List.sum_map_add, sum_map_ite_of_mem (val a) (key a) ks hnd hmem,
      ih ks hnd (fun x hx => hcov x (List.mem_cons_of_mem a hx)),
      List.map_cons, List.sum_cons]

theorem sum_map_filter_eq_ite {β : Type} (q : β → Prop) [DecidablePred q] (val : β → ℚ) :
    ∀ (l : List β), ((l.filter (fun b => q b)).map val).sum
      = (l.map (fun b => if q b then val b else 0)).sum := by
  intro l
  induction l with
  | nil => simp
  | cons b l ih =>
    by_cases h : q b
    · rw [List.filter_cons_of_pos (by simpa using h), List.map_cons, List.sum_cons, ih,
        List.map_cons, List.sum_cons, if_pos h]
    · rw [List.filter_cons_of_neg (by simpa using h), ih, List.map_cons, List.sum_cons,
        if_neg h, zero_add]

theorem sum_innerMerge_left {α β κ : Type} [DecidableEq κ] (left : List α) (right : List β)
    (kl : α → κ) (kr : β → κ) (val : α → ℚ) :
    ((innerMerge left right kl kr).map (fun p => val p.1)).sum
      = (left.map (fun a => val a * (right.countP (fun b => kr b = kl a) : ℚ))).sum := by
  induction left with
  | nil => simp [innerMerge]
  | cons a l ih =>
    rw [innerMerge, List.flatMap_cons, List.map_append, List.sum_append, ← innerMerge, ih,
      List.map_cons, List.sum_cons]
    congr 1
    rw [List.map_map]
    have hf : ((fun p : α × β => val p.1) ∘ fun b => (a, b)) = fun _ => val a := rfl
    rw [hf, List.map_const', List.sum_replicate, List.countP_eq_length_filter,
      nsmul_eq_mul, mul_comm]

theorem sum_innerMerge_right {α β κ : Type} [DecidableEq κ] (left : List α) (right : List β)
    (kl : α → κ) (kr : β → κ) (val : β → ℚ) :
    ((innerMerge left right kl kr).map (fun p => val p.2)).sum
      = (right.map (fun b => val b * (left.countP (fun a => kl a = kr b) : ℚ))).sum := by
  induction left with
  | nil => simp [innerMerge]
  | cons a l ih =>
    rw [innerMerge, List.flatMap_cons, List.map_append, List.sum_append, ← innerMerge, ih]
    have hcnt : right.map (fun b => val b * ((a :: l).countP (fun x => kl x = kr b) : ℚ))
        = right.map (fun b => (if kr b = kl a then val b else 0)
            + val b * (l.countP (fun x => kl x = kr b) : ℚ)) := by
      apply List.map_congr_left
      intro b _
      by_cases h : kl a = kr b
      · rw [List.countP_cons, if_pos (by simpa using h), if_pos h.symm]
        push_cast
        ring
      · rw [List.countP_cons, if_neg (by simpa using h), if_neg (fun hh => h hh.symm)]
        push_cast
        ring
    rw [hcnt, List.sum_map_add]
    congr 1
    rw [List.map_map]
    have hf : ((fun p : α × β => val p.2) ∘ fun b => (a, b)) = val := rfl
    rw [hf]
    exact sum_map_filter_eq_ite (fun b => kr b = kl a) val right

/-- `frame.groupby(key)`: the rows of a table bucketed under each
distinct key value. -/
def groupBy {α κ : Type} [DecidableEq κ] (l : List α) (key : α → κ) : List (κ × List α) :=
  (dropDup (l.map key)).map (fun k => (k, l.filter (fun a => key a = k)))

theorem sum_groupBy {α κ : Type} [DecidableEq κ] (l : List α) (key : α → κ) (val : α → ℚ) :
    ((groupBy l key).map (fun g => (g.2.map val).sum)).sum = (l.map val).sum := by
  rw [groupBy, List.map_map]
  exact sum_filter_partition key val l (dropDup (l.map key)) (nodup_dropDup _)
    (fun a ha => mem_dropDup.mpr (List.mem_map_of_mem key ha))

/-- One row of the products table as the category metric reads it. -/
structure ProductRow where
  product_id : Nat
  product_category_name : String
deriving DecidableEq

/-- One row of the customers table as the geographic metric reads it. -/
structure CustomerRow where
  customer_id : Nat
  customer_state : String
deriving DecidableEq

/-- One aggregated row of the category/state performance frames:
`agg(['sum', 'count', 'mean'])` renamed to `total_revenue`,
`total_orders`, `avg_order_value`. -/
structure PerfRow where
  total_revenue : ℚ
  total_orders : Nat
  avg_order_value : Option ℚ
deriving DecidableEq

/-- `calculate_product_category_performance` from `business_metrics.py`:
products inner-merged with the period rows on `product_id`, grouped by
category, aggregated, and sorted by total revenue descending. -/
def calculate_product_category_performance (sales_data : List SalesRow)
    (products_data : List ProductRow) (pcol : SalesRow → Int) (v : Int) :
    List (String × PerfRow) :=
  List.insertionSort (fun g1 g2 => g2.2.total_revenue ≤ g1.2.total_revenue)
    ((groupBy (innerMerge products_data (filterPeriod sales_data pcol v)
        ProductRow.product_id SalesRow.product_id)
      (fun p => p.1.product_category_name)).map
      (fun g => (g.1,
        { total_revenue := (g.2.map (fun p => p.2.price)).sum
          total_orders := g.2.length
          avg_order_value := seriesMean (g.2.map (fun p => p.2.price)) })))

/-- `calculate_geographic_performance` from `business_metrics.py`: the
period rows inner-merged with orders on `order_id`, then with customers
on `customer_id`, grouped by state, aggregated, and sorted by total
revenue descending. -/
def calculate_geographic_performance (sales_data : List SalesRow)
    (orders_data : List OrderRow) (customers_data : List CustomerRow)
    (pcol : SalesRow → Int) (v : Int) : List (String × PerfRow) :=
  List.insertionSort (fun g1 g2 => g2.2.total_revenue ≤ g1.2.total_revenue)
    ((groupBy (innerMerge (innerMerge (filterPeriod sales_data pcol v) orders_data
          SalesRow.order_id OrderRow.order_id) customers_data
          (fun p => p.2.customer_id) CustomerRow.customer_id)
      (fun p => p.2.customer_state)).map
      (fun g => (g.1,
        { total_revenue := (g.2.map (fun p => p.1.1.price)).sum
          total_orders := g.2.length
          avg_order_value := seriesMean (g.2.map (fun p => p.1.1.price)) })))

/-- Sum of the `total_revenue` column of a performance frame. -/
def sumTotalRevenue {κ : Type} (perf : List (κ × PerfRow)) : ℚ :=
  (perf.map (fun g => g.2.total_revenue)).sum

theorem sumTotalRevenue_insertionSort {κ : Type} (r : κ × PerfRow → κ × PerfRow → Prop)
    [DecidableRel r] (l : List (κ × PerfRow)) :
    sumTotalRevenue (List.insertionSort r l) = sumTotalRevenue l :=
  ((List.perm_insertionSort r l).map _).sum_eq

theorem sumTotalRevenue_aggMap {α κ : Type} (groups : List (κ × List α)) (val : α → ℚ) :
    sumTotalRevenue (groups.map (fun g => (g.1,
        ({ total_revenue := (g.2.map val).sum
           total_orders := g.2.length
           avg_order_value := seriesMean (g.2.map val) } : PerfRow))))
      = (groups.map (fun g => (g.2.map val).sum)).sum := by
  rw [sumTotalRevenue, List.map_map]
  rfl

/-- A period row whose product is absent from the products table: the
inner merge silently drops it. -/
def exC1 : List SalesRow := [⟨1, 1, 10, 2023, 1, 0, 0⟩]

/-- C1 counterexample: with one period row of price 10 whose product id
is missing from the (empty) products table, the category performance
groups sum to 0 while the period's price sum is 10: a line item is lost
by the inner join, so the claimed equality fails as stated. -/
theorem C1_group_revenue_counterexample :
    sumTotalRevenue (calculate_product_category_performance exC1 [] SalesRow.year 2023) = 0 ∧
    revenueSum (filterPeriod exC1 SalesRow.year 2023) = 10 ∧
    (0 : ℚ) ≠ 10 := by
  refine ⟨?_, ?_, by norm_num⟩
  · norm_num [calculate_product_category_performance, sumTotalRevenue, groupBy, innerMerge,
      filterPeriod, dropDup, exC1]
  · norm_num [revenueSum, filterPeriod, exC1]

/-- C1 (amended): whenever every period row's product id occurs exactly
once in the products table, every period row's order id occurs exactly
once in the orders table, and every order's customer id occurs exactly
once in the customers table (unique right-side join keys covering the
period rows), the per-group `total_revenue` values of both the category
and the state performance frames sum to exactly the period's price sum:
no line item lost and none counted twice. -/
theorem C1_group_revenue_amended (sales_data : List SalesRow)
    (products_data : List ProductRow) (orders_data : List OrderRow)
    (customers_data : List CustomerRow) (pcol : SalesRow → Int) (v : Int)
    (h1 : ∀ r ∈ filterPeriod sales_data pcol v,
      products_data.countP (fun p => p.product_id = r.product_id) = 1)
    (h2 : ∀ r ∈ filterPeriod sales_data pcol v,
      orders_data.countP (fun o => o.order_id = r.order_id) = 1)
    (h3 : ∀ o ∈ orders_data,
      customers_data.countP (fun c => c.customer_id = o.customer_id) = 1) :
    sumTotalRevenue (calculate_product_category_performance sales_data products_data pcol v)
      = revenueSum (filterPeriod sales_data pcol v) ∧
    sumTotalRevenue (calculate_geographic_performance sales_data orders_data
        customers_data pcol v)
      = revenueSum (filterPeriod sales_data pcol v) := by
  constructor
  · rw [calculate_product_category_performance, sumTotalRevenue_insertionSort,
      sumTotalRevenue_aggMap, sum_groupBy,
      sum_innerMerge_right products_data (filterPeriod sales_data pcol v)
        ProductRow.product_id SalesRow.product_id (fun p => p.price), revenueSum]
    apply congrArg List.sum
    apply List.map_congr_left
    intro r hr
    rw [h1 r hr]
    norm_num
  · rw [calculate_geographic_performance, sumTotalRevenue_insertionSort,
      sumTotalRevenue_aggMap, sum_groupBy,
      sum_innerMerge_left (innerMerge (filterPeriod sales_data pcol v) orders_data
          SalesRow.order_id OrderRow.order_id) customers_data
        (fun p => p.2.customer_id) CustomerRow.customer_id (fun p => p.1.price)]
    have hstep : (innerMerge (filterPeriod sales_data pcol v) orders_data
          SalesRow.order_id OrderRow.order_id).map
        (fun p => p.1.price * (customers_data.countP
          (fun c => c.customer_id = p.2.customer_id) : ℚ))
        = (innerMerge (filterPeriod sales_data pcol v) orders_data
            SalesRow.order_id OrderRow.order_id).map (fun p => p.1.price) := by
      apply List.map_congr_left
      intro p hp
      rw [h3 p.2 (mem_innerMerge.mp hp).2.1]
      norm_num
    rw [hstep,
      sum_innerMerge_left (filterPeriod sales_data pcol v) orders_data
        SalesRow.order_id OrderRow.order_id (fun r => r.price), revenueSum]
    apply congrArg List.sum
    apply List.map_congr_left
    intro r hr
    rw [h2 r hr]
    norm_num

/-- Two period rows under distinct orders, products and customers, for
the C1 witness. -/
def exC1wsales : List SalesRow :=
  [⟨1, 1, 10, 2023, 1, 0, 0⟩, ⟨2, 2, 5, 2023, 1, 0, 0⟩]

/-- Products table covering the witness rows exactly once each. -/
def exC1wproducts : List ProductRow := [⟨1, "toys"⟩, ⟨2, "books"⟩]

/-- Orders table covering the witness rows exactly once each. -/
def exC1worders : List OrderRow := [⟨1, 11, "delivered"⟩, ⟨2, 22, "delivered"⟩]

/-- Customers table covering the witness orders exactly once each. -/
def exC1wcustomers : List CustomerRow := [⟨11, "SP"⟩, ⟨22, "RJ"⟩]

/-- C1 witness: on covered, duplicate-free join keys both performance
frames' total revenues sum to the period's price sum 15. -/
theorem C1_group_revenue_amended_witness :
    sumTotalRevenue (calculate_product_category_performance exC1wsales exC1wproducts
        SalesRow.year 2023) = 15 ∧
    sumTotalRevenue (calculate_geographic_performance exC1wsales exC1worders exC1wcustomers
        SalesRow.year 2023) = 15 := by
  have h := C1_group_revenue_amended exC1wsales exC1wproducts exC1worders exC1wcustomers
    SalesRow.year 2023 (by decide) (by decide) (by decide)
  refine ⟨h.1.trans ?_, h.2.trans ?_⟩ <;> norm_num [revenueSum, filterPeriod, exC1wsales]

/-- The index of `yearly_data.groupby('month')`: the distinct months
present in the target year's rows, in ascending order. -/
def monthsPresent (sales_data : List SalesRow) (target_year : Int) : List Int :=
  List.insertionSort (· ≤ ·)
    (dropDup ((sales_data.filter (fun r => r.year = target_year)).map SalesRow.month))

/-- `yearly_data.groupby('month')['price'].sum()`: per-month price sums
of the target year, indexed by the sorted distinct months present. -/
def monthly_revenue (sales_data : List SalesRow) (target_year : Int) : List (Int × ℚ) :=
  (monthsPresent sales_data target_year).map
    (fun m => (m, revenueSum ((sales_data.filter (fun r => r.year = target_year)).filter
      (fun r => r.month = m))))

/-- The price sum of one year-month cell, stated directly on the sales
table. -/
def monthRev (sales_data : List SalesRow) (y m : Int) : ℚ :=
  revenueSum (sales_data.filter (fun r => r.year = y ∧ r.month = m))

theorem monthly_revenue_val_eq (sales_data : List SalesRow) (y m : Int) :
    revenueSum ((sales_data.filter (fun r => r.year = y)).filter (fun r => r.month = m))
      = monthRev sales_data y m := by
  rw [monthRev]
  congr 1
  rw [List.filter_filter]
  apply List.filter_congr
  intro x _
  by_cases h1 : x.year = y <;> by_cases h2 : x.month = m <;> simp [h1, h2]

/-- The tail of `Series.pct_change`: each value paired with its relative
change against the running previous value. -/
def pctChangeFrom (prev : ℚ) : List (Int × ℚ) → List (Int × Option ℚ)
  | [] => []
  | (k, x) :: rest => (k, some ((x - prev) / prev)) :: pctChangeFrom x rest

/-- `Series.pct_change`: the first entry is `none` (NaN), every later
entry is the relative change against the previous entry. -/
def pctChange : List (Int × ℚ) → List (Int × Option ℚ)
  | [] => []
  | (k, x) :: rest => (k, none) :: pctChangeFrom x rest

/-- `calculate_monthly_growth_trend` from `business_metrics.py`. -/
def calculate_monthly_growth_trend (sales_data : List SalesRow) (target_year : Int) :
    List (Int × Option ℚ) :=
  pctChange (monthly_revenue sales_data target_year)

theorem pctChangeFrom_length : ∀ (p : ℚ) (s : List (Int × ℚ)),
    (pctChangeFrom p s).length = s.length
  | _, [] => rfl
  | _, (_, x) :: rest => by
    simp only [pctChangeFrom, List.length_cons, pctChangeFrom_length x rest]

theorem pctChange_length : ∀ (s : List (Int × ℚ)), (pctChange s).length = s.length
  | [] => rfl
  | (_, x) :: rest => by
    simp only [pctChange, List.length_cons, pctChangeFrom_length x rest]

theorem pctChangeFrom_map_fst : ∀ (p : ℚ) (s : List (Int × ℚ)),
    (pctChangeFrom p s).map Prod.fst = s.map Prod.fst
  | _, [] => rfl
  | _, (_, x) :: rest => by
    simp only [pctChangeFrom, List.map_cons, pctChangeFrom_map_fst x rest]

theorem pctChange_map_fst : ∀ (s : List (Int × ℚ)),
    (pctChange s).map Prod.fst = s.map Prod.fst
  | [] => rfl
  | (_, x) :: rest => by
    simp only [pctChange, List.map_cons, pctChangeFrom_map_fst x rest]

theorem pctChange_getElem?_fst (s : List (Int × ℚ)) (i : Nat) :
    ((pctChange s)[i]?).map Prod.fst = (s[i]?).map Prod.fst := by
  rw [← List.getElem?_map, ← List.getElem?_map, pctChange_map_fst]

theorem pctChange_getElem?_zero : ∀ (s : List (Int × ℚ)) (km : Int × Option ℚ),
    (pctChange s)[0]? = some km → km.2 = none
  | [], km => by
    intro h
    simp [pctChange] at h
  | (k, x) :: rest, km => by
    intro h
    simp only [pctChange, List.getElem?_cons_zero, Option.some.injEq] at h
    rw [← h]

theorem pctChangeFrom_getElem?_succ : ∀ (p : ℚ) (s : List (Int × ℚ)) (i : Nat)
    (k k2 : Int) (x x2 : ℚ),
    s[i]? = some (k, x) → s[i + 1]? = some (k2, x2) →
    (pctChangeFrom p s)[i + 1]? = some (k2, some ((x2 - x) / x))
  | _, [], i, k, k2, x, x2 => by
    intro h _
    simp at h
  | _, (b1, b2) :: [], 0, k, k2, x, x2 => by
    intro _ h2
    simp at h2
  | _, (b1, b2) :: (c1, c2) :: rest2, 0, k, k2, x, x2 => by
    intro h1 h2
    simp only [List.getElem?_cons_zero, List.getElem?_cons_succ, Option.some.injEq] at h1 h2
    injection h1 with hk hx
    injection h2 with hk2 hx2
    subst hk
    subst hx
    subst hk2
    subst hx2
    simp [pctChangeFrom]
  | p, (b1, b2) :: rest, (j + 1), k, k2, x, x2 => by
    intro h1 h2
    simp only [List.getElem?_cons_succ] at h1 h2
    have ih := pctChangeFrom_getElem?_succ b2 rest j k k2 x x2 h1 h2
    simpa [pctChangeFrom, List.getElem?_cons_succ] using ih

theorem pctChange_getElem?_succ : ∀ (s : List (Int × ℚ)) (i : Nat)
    (k k2 : Int) (x x2 : ℚ),
    s[i]? = some (k, x) → s[i + 1]? = some (k2, x2) →
    (pctChange s)[i + 1]? = some (k2, some ((x2 - x) / x))
  | [], i, k, k2, x, x2 => by
    intro h _
    simp at h
  | (b1, b2) :: rest, 0, k, k2, x, x2 => by
    intro h1 h2
    simp only [List.getElem?_cons_zero, List.getElem?_cons_succ, Option.some.injEq] at h1 h2
    injection h1 with hk hx
    subst hk
    subst hx
    cases rest with
    | nil => simp at h2
    | cons c rest2 =>
      obtain ⟨c1, c2⟩ := c
      simp only [List.getElem?_cons_zero, Option.some.injEq] at h2
      injection h2 with hk2 hx2
      subst hk2
      subst hx2
      simp [pctChange, pctChangeFrom]
  | (b1, b2) :: rest, (j + 1), k, k2, x, x2 => by
    intro h1 h2
    simp only [List.getElem?_cons_succ] at h1 h2
    have ih := pctChangeFrom_getElem?_succ b2 rest j k k2 x x2 h1 h2
    simpa [pctChange, List.getElem?_cons_succ] using ih

theorem map_fst_map_pairing {κ γ : Type} (l : List κ) (f : κ → γ) :
    (l.map (fun m => (m, f m))).map Prod.fst = l := by
  induction l with
  | nil => rfl
  | cons a l ih => simp [ih]

theorem mg_map_fst (sales_data : List SalesRow) (target_year : Int) :
    (calculate_monthly_growth_trend sales_data target_year).map Prod.fst
      = monthsPresent sales_data target_year := by
  rw [calculate_monthly_growth_trend, pctChange_map_fst, monthly_revenue,
    map_fst_map_pairing]

theorem monthly_revenue_getElem? (sales_data : List SalesRow) (y : Int) (i : Nat) :
    (monthly_revenue sales_data y)[i]?
      = ((monthsPresent sales_data y)[i]?).map (fun m => (m, monthRev sales_data y m)) := by
  rw [monthly_revenue, List.getElem?_map]
  cases h : (monthsPresent sales_data y)[i]? with
  | none => rfl
  | some m => rw [Option.map_some', Option.map_some', monthly_revenue_val_eq]

/-- C5: the monthly growth series is indexed exactly by the months
present in the target year's rows (missing months absent), in strictly
ascending order; its length is the number of distinct months present;
its first entry is `none` (NaN); and each later entry is the relative
change of that month's price sum against the previous present month's
price sum (stated for non-zero previous revenue, where the relative
change is well defined). -/
theorem C5_monthly_growth_trend (sales_data : List SalesRow) (target_year : Int) :
    (∀ m : Int, m ∈ (calculate_monthly_growth_trend sales_data target_year).map Prod.fst ↔
      ∃ r ∈ sales_data, r.year = target_year ∧ r.month = m) ∧
    ((calculate_monthly_growth_trend sales_data target_year).map Prod.fst).Sorted (· < ·) ∧
    (calculate_monthly_growth_trend sales_data target_year).length
      = ((sales_data.filter (fun r => r.year = target_year)).map
          SalesRow.month).toFinset.card ∧
    (∀ km : Int × Option ℚ,
      (calculate_monthly_growth_trend sales_data target_year)[0]? = some km →
        km.2 = none) ∧
    (∀ (i : Nat) (km km2 : Int × Option ℚ),
      (calculate_monthly_growth_trend sales_data target_year)[i]? = some km →
      (calculate_monthly_growth_trend sales_data target_year)[i + 1]? = some km2 →
      monthRev sales_data target_year km.1 ≠ 0 →
      km2.2 = some ((monthRev sales_data target_year km2.1
            - monthRev sales_data target_year km.1)
          / monthRev sales_data target_year km.1)) := by
  refine ⟨?_, ?_, ?_, ?_, ?_⟩
  · intro m
    rw [mg_map_fst, monthsPresent, (List.perm_insertionSort _ _).mem_iff, mem_dropDup,
      List.mem_map]
    constructor
    · rintro ⟨r, hr, hm⟩
      rcases List.mem_filter.mp hr with ⟨hrs, hy⟩
      exact ⟨r, hrs, by simpa using hy, hm⟩
    · rintro ⟨r, hrs, hy, hm⟩
      exact ⟨r, List.mem_filter.mpr ⟨hrs, by simpa using hy⟩, hm⟩
  · rw [mg_map_fst, monthsPresent]
    exact (List.sorted_insertionSort _ _).lt_of_le
      ((List.perm_insertionSort _ _).nodup_iff.mpr (nodup_dropDup _))
  · have h1 : (calculate_monthly_growth_trend sales_data target_year).length
        = (monthsPresent sales_data target_year).length := by
      rw [calculate_monthly_growth_trend, pctChange_length, monthly_revenue,
        List.length_map]
    rw [h1, monthsPresent, (List.perm_insertionSort _ _).length_eq, dropDup_length]
  · intro km h
    exact pctChange_getElem?_zero _ km h
  · intro i km km2 h1 h2 _h0
    rw [calculate_monthly_growth_trend] at h1 h2
    rcases List.getElem?_eq_some.mp h1 with ⟨hlt1p, -⟩
    rcases List.getElem?_eq_some.mp h2 with ⟨hlt2p, -⟩
    rw [pctChange_length] at hlt1p hlt2p
    have hmi := monthly_revenue_getElem? sales_data target_year i
    have hmi2 := monthly_revenue_getElem? sales_data target_year (i + 1)
    cases hpi : (monthsPresent sales_data target_year)[i]? with
    | none =>
      rw [hpi] at hmi
      have hn : (monthly_revenue sales_data target_year)[i]? = none := hmi
      rw [List.getElem?_eq_none_iff] at hn
      omega
    | some m1 =>
      cases hpi2 : (monthsPresent sales_data target_year)[i + 1]? with
      | none =>
        rw [hpi2] at hmi2
        have hn : (monthly_revenue sales_data target_year)[i + 1]? = none := hmi2
        rw [List.getElem?_eq_none_iff] at hn
        omega
      | some m2 =>
        rw [hpi] at hmi
        rw [hpi2] at hmi2
        have hsi : (monthly_revenue sales_data target_year)[i]?
            = some (m1, monthRev sales_data target_year m1) := hmi
        have hsi2 : (monthly_revenue sales_data target_year)[i + 1]?
            = some (m2, monthRev sales_data target_year m2) := hmi2
        have hres := pctChange_getElem?_succ (monthly_revenue sales_data target_year) i
          m1 m2 (monthRev sales_data target_year m1) (monthRev sales_data target_year m2)
          hsi hsi2
        rw [h2] at hres
        have hkm2 := Option.some.inj hres
        have hfst := pctChange_getElem?_fst (monthly_revenue sales_data target_year) i
        rw [h1, hsi] at hfst
        have hkm1 : km.1 = m1 := Option.some.inj hfst
        rw [hkm2, hkm1]

/-- A sales table for 2023 holding only months 1 and 3, with revenues
10 and 5. -/
def exC5 : List SalesRow :=
  [⟨1, 1, 10, 2023, 1, 0, 0⟩, ⟨2, 1, 5, 2023, 3, 0, 0⟩]

/-- C5 witness: over a year with months {1, 3} only, the growth series
has length 2, its first entry is NaN, and its month-3 entry equals
(rev3 - rev1) / rev1 = (5 - 10) / 10 = -1/2. -/
theorem C5_monthly_growth_trend_witness :
    (calculate_monthly_growth_trend exC5 2023).length = 2 ∧
    (calculate_monthly_growth_trend exC5 2023)[0]? = some (1, none) ∧
    (calculate_monthly_growth_trend exC5 2023)[1]?
      = some (3, some ((monthRev exC5 2023 3 - monthRev exC5 2023 1)
          / monthRev exC5 2023 1)) ∧
    monthRev exC5 2023 1 = 10 ∧
    monthRev exC5 2023 3 = 5 := by
  have hg : calculate_monthly_growth_trend exC5 2023
      = [(1, none), (3, some (-(1 : ℚ) / 2))] := by
    norm_num [calculate_monthly_growth_trend, monthly_revenue, monthsPresent, dropDup,
      revenueSum, pctChange, pctChangeFrom, exC5, List.insertionSort, List.orderedInsert]
  have he := (C5_monthly_growth_trend exC5 2023).2.2.2.2 0 (1, none)
    (3, some (-(1 : ℚ) / 2)) (by rw [hg]; simp) (by rw [hg]; simp)
    (by norm_num [monthRev, revenueSum, exC5])
  simp only at he
  refine ⟨?_, by rw [hg]; simp, ?_, ?_, ?_⟩
  · rw [(C5_monthly_growth_trend exC5 2023).2.2.1]
    decide
  · rw [hg, he]
    simp
  · norm_num [monthRev, revenueSum, exC5]
  · norm_num [monthRev, revenueSum, exC5]

end Ecom
